import Mathlib

/-!
Shallow embedding of the texas-dps-scheduler client (the `TexasScheduler`
class: hold/book reservation workflow, polling-queue pause/resume, the
Telegram status notifier, and the per-location date prober), together with
proofs settling the frozen claims about it.

Network interaction is modelled by oracles: every remote response the code
would await is a parameter, and each operation returns its successor state
plus the list of externally visible effects it performed (scheduling-API
transport calls, notifier report invocations, process exits).
-/

namespace TXDPS

/-- Externally visible effects of one scheduler operation.
`transport p` is a call to the scheduling API at path `p` via `requestApi`;
`notify imp m` is an invocation of `sendWebhook m imp`;
`exitProc c` is `process.exit(c)` (the operation returns nothing after it). -/
inductive Effect
  | transport (path : String)
  | notify (important : Bool) (message : String)
  | exitProc (code : Nat)
deriving DecidableEq

/-- `appSettings` fields of the parsed configuration used by the workflow. -/
structure AppSettings where
  demoOnly : Bool
  cancelIfExist : Bool
deriving DecidableEq

/-- `webhook` fields of the parsed configuration used by the workflow. -/
structure WebhookConfig where
  enable : Bool
deriving DecidableEq

/-- `personalInfo` fields that appear in user-visible messages. -/
structure PersonalInfo where
  firstName : String
  lastName : String
deriving DecidableEq

/-- The slice of `parseConfig()` the reservation workflow reads. -/
structure Config where
  appSettings : AppSettings
  webhook : WebhookConfig
  personalInfo : PersonalInfo
deriving DecidableEq

/-- One element of `ExistBookingResponse[]` (an existing remote booking). -/
structure ExistBookingResponse where
  ConfirmationNumber : String
deriving DecidableEq

/-- One time slot of an availability date (`AvaliableTimeSlots`). -/
structure AvaliableTimeSlots where
  SlotId : Int
  StartDateTime : String
  FormattedStartDateTime : String
  Duration : Int
deriving DecidableEq

/-- One entry of `response.LocationAvailabilityDates`: the date (as the
millisecond timestamp `new Date(d.AvailabilityDate).valueOf()`) plus its
open time slots. -/
structure LocationAvailabilityDate where
  AvailabilityDate : Int
  AvailableTimeSlots : List AvaliableTimeSlots
deriving DecidableEq

/-- Body of the `/api/AvailableLocationDates` response. -/
structure AvaliableLocationDatesResponse where
  LocationAvailabilityDates : List LocationAvailabilityDate
deriving DecidableEq

/-- Mutable fields of the `TexasScheduler` instance driving one run.
`exited = some c` records that `process.exit(c)` has happened. -/
structure St where
  isHolded : Bool
  isBooked : Bool
  queuePaused : Bool
  existingConf : String
  exited : Option Nat
deriving DecidableEq

/-- Field values at construction time: both latches false, queue running,
no staged cancellation, process alive. -/
def initSt : St :=
  { isHolded := false, isBooked := false, queuePaused := false,
    existingConf := "", exited := none }

/-! ## Notifier (`sendWebhook`, Telegram backend)

The remote responses are an oracle list consumed one per HTTP request; the
recursion of the source (retry a failed edit as a fresh send) is fuel-indexed,
and two units of fuel are enough for every reachable call. -/

/-- Decoded Telegram API response: the `ok` flag and, for successful sends,
`result.message_id`. -/
structure TgResp where
  ok : Bool
  message_id : Int
deriving DecidableEq

/-- One HTTP request made by `sendWebhook`: a `sendMessage` call (with its
`disable_notification` flag) or an `editMessageText` call on a message id. -/
inductive TgCall
  | sendMessage (silent : Bool)
  | editMessageText (message_id : Int)
deriving DecidableEq

/-- `sendWebhook(message, important)` of the source, as a transformer of the
cached `webhookStatusMessageId` (initially `-1`). Returns the new cached id
and the Telegram calls performed, in order. On a failed edit the source sets
the id to `-2` and re-enters itself once; the re-entry always has
`sendNewMessage = true`, so fuel `2` is exact. -/
def sendWebhook : Nat → List TgResp → Int → Bool → Int × List TgCall
  | 0, _, id, _ => (id, [])
  | fuel + 1, resps, id, important =>
    let sendNewMessage : Bool := important || decide (id < 0)
    let call : TgCall :=
      if sendNewMessage then .sendMessage (!important) else .editMessageText id
    match resps with
    | [] => (id, [call])
    | r :: rest =>
      if r.ok then
        if !important && sendNewMessage then (r.message_id, [call])
        else (id, [call])
      else if !sendNewMessage then
        let retry := sendWebhook fuel rest (-2) important
        (retry.1, call :: retry.2)
      else (id, [call])

/-! ## Location prober filter (`getLocationDates`) -/

/-- Milliseconds in one day: `ms("1d")` of the `ms` package. -/
def msPerDay : Int := 86400000

/-- The date filter of `getLocationDates`: keep a date iff its distance from
now is below `daysAround[1]` days, at least `daysAround[0]` days, and it has
at least one open time slot (in the source's operand order). -/
def filterDates (lo hi now : Int) (dates : List LocationAvailabilityDate) :
    List LocationAvailabilityDate :=
  dates.filter fun d =>
    let msAway := d.AvailabilityDate - now
    decide (msAway < hi * msPerDay) && decide (msAway ≥ lo * msPerDay) &&
      decide (d.AvailableTimeSlots.length > 0)

/-- `getLocationDates` for one location, abstracted over the fetch: a failed
`/api/AvailableLocationDates` request is `Except.error`, a received body is
`Except.ok`. Returns the selected candidate slot (the first slot of the first
qualifying date, `none` when no date qualifies) together with the raw
response that the caller folds into the round summary. -/
def getLocationDates (lo hi now : Int)
    (fetch : Except Unit AvaliableLocationDatesResponse) :
    Except Unit (Option AvaliableTimeSlots × AvaliableLocationDatesResponse) :=
  match fetch with
  | .error e => .error e
  | .ok response =>
    match filterDates lo hi now response.LocationAvailabilityDates with
    | [] => .ok (none, response)
    | d :: _ => .ok (d.AvailableTimeSlots.head?, response)

/-! ## Reservation workflow (`cancelBooking`, `bookSlot`, `holdSlot`)

Each operation takes the remote responses it would await as oracle
parameters and returns the successor instance state plus its effect list.
`process.exit` sets `St.exited` and the operation returns at once, so no
effect ever follows an `exitProc` entry. -/

/-- The appointment link printed and messaged after a successful booking. -/
def appointmentURL (confirmationNumber : String) : String :=
  "https://public.txdpsscheduler.com/?b=" ++ confirmationNumber

/-- The important webhook message of `bookSlot`: the source's string array
joined with newlines. The definition is associated so that the confirmation
number of the second line is a top-level `++` operand. -/
def bookMessage (firstName lastName confirmationNumber locName timeStr : String) :
    String :=
  ("Booking for " ++ firstName ++ " " ++ lastName ++
      " has been booked.\nConfirmation Number: ")
    ++ confirmationNumber ++
    ("\nLocation: " ++ locName ++ " DPS\nTime: " ++ timeStr ++
      "\nAppointment URL: " ++ appointmentURL confirmationNumber ++
      "\n\nScheduler will now Exit.")

/-- `cancelBooking`: refuse in demo mode (exit 2); otherwise POST
`/api/CancelBooking` and, unless the status is 200, exit 0.
`cancelStatus` is the oracle HTTP status of the cancellation request. -/
def cancelBooking (cfg : Config) (cancelStatus : Nat) (st : St) :
    St × List Effect :=
  if cfg.appSettings.demoOnly then
    ({ st with exited := some 2 }, [.exitProc 2])
  else if cancelStatus = 200 then
    (st, [.transport "/api/CancelBooking"])
  else
    ({ st with exited := some 0 },
      [.transport "/api/CancelBooking", .exitProc 0])

/-- `bookSlot`: refuse in demo mode (exit 2); no-op when already booked;
otherwise fetch a response id (`/api/Eligibility`) and POST
`/api/NewBooking`. On HTTP 200 set the `isBooked` latch, send the important
confirmation message when the webhook is enabled, and exit 0; otherwise
resume the polling queue when it is paused. `bookStatus` is the oracle HTTP
status of the booking request and `confirmationNumber` the oracle
confirmation of its body. -/
def bookSlot (cfg : Config) (bookStatus : Nat) (confirmationNumber : String)
    (locName timeStr : String) (st : St) : St × List Effect :=
  if cfg.appSettings.demoOnly then
    ({ st with exited := some 2 }, [.exitProc 2])
  else if st.isBooked then (st, [])
  else
    let effs : List Effect :=
      [.transport "/api/Eligibility", .transport "/api/NewBooking"]
    if bookStatus = 200 then
      let st := { st with isBooked := true }
      let notifyEffs : List Effect :=
        if cfg.webhook.enable then
          [.notify true (bookMessage cfg.personalInfo.firstName
            cfg.personalInfo.lastName confirmationNumber locName timeStr)]
        else []
      ({ st with exited := some 0 },
        effs ++ notifyEffs ++ [.exitProc 0])
    else if st.queuePaused then
      ({ st with queuePaused := false }, effs)
    else (st, effs)

/-- `holdSlot`: refuse in demo mode (exit 2); no-op when already holding;
cancel the staged existing booking when one was recorded (a failed
cancellation exits inside `cancelBooking` and nothing further runs); then
POST `/api/HoldSlot`. When the response does not confirm the hold, resume
the polling queue when it is paused and return; otherwise set the `isHolded`
latch and run `bookSlot`. -/
def holdSlot (cfg : Config) (cancelStatus : Nat) (holdOk : Bool)
    (bookStatus : Nat) (confirmationNumber locName timeStr : String)
    (st : St) : St × List Effect :=
  if cfg.appSettings.demoOnly then
    ({ st with exited := some 2 }, [.exitProc 2])
  else if st.isHolded then (st, [])
  else
    let cancelStep : St × List Effect :=
      if st.existingConf ≠ "" then cancelBooking cfg cancelStatus st
      else (st, [])
    let st := cancelStep.1
    let cancelEffs := cancelStep.2
    if st.exited.isSome then (st, cancelEffs)
    else
      let effs := cancelEffs ++ [Effect.transport "/api/HoldSlot"]
      if holdOk then
        let st := { st with isHolded := true }
        let bookStep := bookSlot cfg bookStatus confirmationNumber locName timeStr st
        (bookStep.1, effs ++ bookStep.2)
      else if st.queuePaused then
        ({ st with queuePaused := false }, effs)
      else (st, effs)

/-! ## Run-level step relation

Within one run, `holdSlot` is invoked only by a prober that found a
candidate (`getLocationDates` pauses the queue first), and `bookSlot` is
invoked only by `holdSlot` after it sets `isHolded`; a probe discovery event
therefore carries the oracle responses of the whole hold-then-book chain. -/

/-- One candidate-discovery event: the oracle responses consumed by the
`holdSlot` invocation it triggers. -/
structure ProbeEvent where
  cancelStatus : Nat
  holdOk : Bool
  bookStatus : Nat
  confirmationNumber : String
  locName : String
  timeStr : String
deriving DecidableEq

/-- The state transition of one candidate-discovery event: the prober pauses
the queue when it is running, then invokes `holdSlot`. After a `process.exit`
nothing further runs. -/
def step (cfg : Config) (st : St) (e : ProbeEvent) : St :=
  if st.exited.isSome then st
  else
    let st := if st.queuePaused then st else { st with queuePaused := true }
    (holdSlot cfg e.cancelStatus e.holdOk e.bookStatus e.confirmationNumber
      e.locName e.timeStr st).1

/-- The state after a sequence of candidate-discovery events. -/
def runTrace (cfg : Config) (st : St) : List ProbeEvent → St
  | [] => st
  | e :: es => runTrace cfg (step cfg st e) es

/-! ## Orchestrator startup (`run`, up to entering the polling loop) -/

/-- The initial status message of `run`. -/
def startingMessage (nowStr : String) : String :=
  "TX DPS Scheduler Starting at " ++ nowStr

/-- `run` up to entering `getLocationDatesAll`: send the starting
notification when the webhook is enabled (a failure there exits 5); query
`/api/Booking` for an existing booking; when one exists, either stage its
confirmation number for cancellation-on-hold (`cancelIfExist`) or exit 0;
then fetch the location list. `webhookOk` is the oracle outcome of the
starting notification and `existing` the oracle body of the existing-booking
query. -/
def runStartup (cfg : Config) (webhookOk : Bool)
    (existing : List ExistBookingResponse) (nowStr : String) (st : St) :
    St × List Effect :=
  let webhookStep : St × List Effect :=
    if cfg.webhook.enable then
      if webhookOk then (st, [.notify false (startingMessage nowStr)])
      else
        ({ st with exited := some 5 },
          [.notify false (startingMessage nowStr), .exitProc 5])
    else (st, [])
  let st := webhookStep.1
  let webhookEffs := webhookStep.2
  if st.exited.isSome then (st, webhookEffs)
  else
    let effs := webhookEffs ++ [Effect.transport "/api/Booking"]
    match existing with
    | [] => (st, effs ++ [.transport "/api/AvailableLocation/"])
    | b :: _ =>
      if cfg.appSettings.cancelIfExist then
        ({ st with existingConf := b.ConfirmationNumber },
          effs ++ [.transport "/api/AvailableLocation/"])
      else
        ({ st with exited := some 0 }, effs ++ [.exitProc 0])

/-! ## Helper definitions for the theorems -/

/-- Recognizes an important notifier report among effects. -/
def isImportantNotification : Effect → Bool
  | .notify true _ => true
  | _ => false

/-- Sample configuration: demo off, replace policy, webhook enabled. -/
def cfgBase : Config := ⟨⟨false, true⟩, ⟨true⟩, ⟨"John", "Doe"⟩⟩

/-- Sample configuration: demo off, keep policy, webhook enabled. -/
def cfgKeep : Config := ⟨⟨false, false⟩, ⟨true⟩, ⟨"John", "Doe"⟩⟩

/-- Sample configuration: demo off, replace policy, webhook disabled. -/
def cfgNoWebhook : Config := ⟨⟨false, true⟩, ⟨false⟩, ⟨"John", "Doe"⟩⟩

/-- Sample configuration: demo (dry-run) mode enabled. -/
def cfgDemo : Config := ⟨⟨true, true⟩, ⟨true⟩, ⟨"John", "Doe"⟩⟩

/-- Sample availability-date response with one out-of-window date. -/
def sampleDatesResponse : AvaliableLocationDatesResponse :=
  ⟨[⟨10 * 86400000, [⟨2, "s", "f", 30⟩]⟩]⟩

/-! ## Claim theorems -/

/-- C1 counterexample: the claim that all five outcome exit codes are
pairwise distinct is false — normal success after booking
(`bookSlot`, HTTP 200) and fatal cancellation failure (`cancelBooking`,
non-200) both terminate the process with exit code 0. -/
theorem exit_codes_not_distinct_counterexample :
    (bookSlot cfgBase 200 "C123" "Austin" "T" initSt).1.exited =
      (cancelBooking cfgBase 500 initSt).1.exited ∧
    (bookSlot cfgBase 200 "C123" "Austin" "T" initSt).1.exited = some 0 := by
  constructor <;> decide

/-- C1 amended: the code reserves exit code 2 for dry-run refusal (in all
three of hold, book, cancel) and 5 for a fatal notification-setup failure,
distinct from each other and from 0, but normal success, the keep-policy
abort on an existing booking, and fatal cancellation failure all share exit
code 0. -/
theorem exit_code_assignment :
    (bookSlot cfgBase 200 "C123" "Austin" "T" initSt).1.exited = some 0 ∧
    (holdSlot cfgDemo 200 true 200 "C" "L" "T" initSt).1.exited = some 2 ∧
    (bookSlot cfgDemo 200 "C" "L" "T" initSt).1.exited = some 2 ∧
    (cancelBooking cfgDemo 200 initSt).1.exited = some 2 ∧
    (runStartup cfgKeep true [⟨"CONF"⟩] "now" initSt).1.exited = some 0 ∧
    (runStartup cfgBase false [] "now" initSt).1.exited = some 5 ∧
    (cancelBooking cfgBase 500 initSt).1.exited = some 0 ∧
    (2 : Nat) ≠ 0 ∧ (5 : Nat) ≠ 0 ∧ (2 : Nat) ≠ 5 := by
  refine ⟨?_, ?_, ?_, ?_, ?_, ?_, ?_, ?_, ?_, ?_⟩ <;> decide

/-- `bookSlot` never changes the `isHolded` latch. -/
theorem bookSlot_isHolded (cfg : Config) (bs : Nat) (cn ln ts : String)
    (st : St) : ((bookSlot cfg bs cn ln ts st).1).isHolded = st.isHolded := by
  unfold bookSlot
  dsimp only
  repeat' split
  all_goals rfl

/-- `bookSlot` never resets the `isBooked` latch. -/
theorem bookSlot_isBooked_mono (cfg : Config) (bs : Nat) (cn ln ts : String)
    (st : St) (h : st.isBooked = true) :
    ((bookSlot cfg bs cn ln ts st).1).isBooked = true := by
  unfold bookSlot
  dsimp only
  repeat' split
  all_goals simp_all

/-- `cancelBooking` never changes the `isHolded` latch. -/
theorem cancelBooking_isHolded (cfg : Config) (cs : Nat) (st : St) :
    ((cancelBooking cfg cs st).1).isHolded = st.isHolded := by
  unfold cancelBooking
  repeat' split
  all_goals rfl

/-- `cancelBooking` never changes the `isBooked` latch. -/
theorem cancelBooking_isBooked (cfg : Config) (cs : Nat) (st : St) :
    ((cancelBooking cfg cs st).1).isBooked = st.isBooked := by
  unfold cancelBooking
  repeat' split
  all_goals rfl

/-- `holdSlot` never resets the `isHolded` latch. -/
theorem holdSlot_isHolded_mono (cfg : Config) (cs : Nat) (ho : Bool)
    (bs : Nat) (cn ln ts : String) (st : St) (h : st.isHolded = true) :
    ((holdSlot cfg cs ho bs cn ln ts st).1).isHolded = true := by
  unfold holdSlot
  dsimp only
  repeat' split
  all_goals simp_all [bookSlot_isHolded, cancelBooking_isHolded]

/-- `holdSlot` never resets the `isBooked` latch. -/
theorem holdSlot_isBooked_mono (cfg : Config) (cs : Nat) (ho : Bool)
    (bs : Nat) (cn ln ts : String) (st : St) (h : st.isBooked = true) :
    ((holdSlot cfg cs ho bs cn ln ts st).1).isBooked = true := by
  unfold holdSlot
  dsimp only
  repeat' split
  all_goals simp_all [bookSlot_isBooked_mono, cancelBooking_isBooked]

/-- `holdSlot` preserves `isBooked implies isHolded`: `bookSlot` is entered
only after the `isHolded` latch is set. -/
theorem holdSlot_inv (cfg : Config) (cs : Nat) (ho : Bool) (bs : Nat)
    (cn ln ts : String) (st : St)
    (hinv : st.isBooked = true → st.isHolded = true)
    (hb : ((holdSlot cfg cs ho bs cn ln ts st).1).isBooked = true) :
    ((holdSlot cfg cs ho bs cn ln ts st).1).isHolded = true := by
  unfold holdSlot at *
  dsimp only at *
  repeat' split at hb
  all_goals simp_all [bookSlot_isHolded, bookSlot_isBooked_mono,
    cancelBooking_isHolded, cancelBooking_isBooked]

/-- One discovery event never resets the `isHolded` latch. -/
theorem step_isHolded_mono (cfg : Config) (st : St) (e : ProbeEvent)
    (h : st.isHolded = true) : (step cfg st e).isHolded = true := by
  unfold step
  dsimp only
  split
  · exact h
  · apply holdSlot_isHolded_mono
    split <;> simp_all

/-- One discovery event never resets the `isBooked` latch. -/
theorem step_isBooked_mono (cfg : Config) (st : St) (e : ProbeEvent)
    (h : st.isBooked = true) : (step cfg st e).isBooked = true := by
  unfold step
  dsimp only
  split
  · exact h
  · apply holdSlot_isBooked_mono
    split <;> simp_all

/-- One discovery event preserves `isBooked implies isHolded`. -/
theorem step_inv (cfg : Config) (st : St) (e : ProbeEvent)
    (hinv : st.isBooked = true → st.isHolded = true) :
    (step cfg st e).isBooked = true → (step cfg st e).isHolded = true := by
  unfold step
  dsimp only
  split
  · exact hinv
  · apply holdSlot_inv
    split <;> simp_all

/-- Event sequences preserve the latch properties. -/
theorem runTrace_latch (cfg : Config) (evs : List ProbeEvent) : ∀ st : St,
    ((st.isBooked = true → st.isHolded = true) →
      ((runTrace cfg st evs).isBooked = true →
        (runTrace cfg st evs).isHolded = true)) ∧
    (st.isHolded = true → (runTrace cfg st evs).isHolded = true) ∧
    (st.isBooked = true → (runTrace cfg st evs).isBooked = true) := by
  induction evs with
  | nil => intro st; exact ⟨fun h => h, fun h => h, fun h => h⟩
  | cons e es ih =>
    intro st
    refine ⟨fun hinv => ?_, fun hh => ?_, fun hb => ?_⟩
    · exact (ih (step cfg st e)).1 (step_inv cfg st e hinv)
    · exact (ih (step cfg st e)).2.1 (step_isHolded_mono cfg st e hh)
    · exact (ih (step cfg st e)).2.2 (step_isBooked_mono cfg st e hb)

/-- C2: in every state reachable from the fresh instance by candidate
discovery events (each running the hold-then-book chain with arbitrary
remote outcomes), `isBooked` implies `isHolded`, and both flags are
write-once latches: once true after some events `evs`, they remain true
after any further events `evs2`. -/
theorem hold_book_latch_invariant (cfg : Config) (conf : String)
    (evs evs2 : List ProbeEvent) :
    ((runTrace cfg { initSt with existingConf := conf } evs).isBooked = true →
      (runTrace cfg { initSt with existingConf := conf } evs).isHolded = true) ∧
    ((runTrace cfg { initSt with existingConf := conf } evs).isHolded = true →
      (runTrace cfg (runTrace cfg { initSt with existingConf := conf } evs)
        evs2).isHolded = true) ∧
    ((runTrace cfg { initSt with existingConf := conf } evs).isBooked = true →
      (runTrace cfg (runTrace cfg { initSt with existingConf := conf } evs)
        evs2).isBooked = true) := by
  refine ⟨(runTrace_latch cfg evs _).1 (fun h => by simp [initSt] at h), ?_, ?_⟩
  · exact (runTrace_latch cfg evs2 _).2.1
  · exact (runTrace_latch cfg evs2 _).2.2

/-- C2 witness: after one fully successful discovery event the run is
booked, and the invariant gives `isHolded`. -/
theorem hold_book_latch_invariant_witness :
    (runTrace cfgBase { initSt with existingConf := "" }
      [⟨200, true, 200, "C", "L", "T"⟩]).isHolded = true :=
  (hold_book_latch_invariant cfgBase "" [⟨200, true, 200, "C", "L", "T"⟩]
    []).1 (by decide)

/-- C3: with demo (dry-run) mode enabled, each of the Hold, Book, and Cancel
operations performs no transport call and no notification — its only effect
is `process.exit` with the dry-run code 2, issued before any other step. -/
theorem demo_mode_short_circuits (cfg : Config) (cs : Nat) (ho : Bool)
    (bs : Nat) (cn ln ts : String) (st : St)
    (hdemo : cfg.appSettings.demoOnly = true) :
    holdSlot cfg cs ho bs cn ln ts st =
      ({ st with exited := some 2 }, [.exitProc 2]) ∧
    bookSlot cfg bs cn ln ts st =
      ({ st with exited := some 2 }, [.exitProc 2]) ∧
    cancelBooking cfg cs st =
      ({ st with exited := some 2 }, [.exitProc 2]) := by
  unfold holdSlot bookSlot cancelBooking
  simp [hdemo]

/-- C3 witness: the dry-run short circuit at a concrete configuration. -/
theorem demo_mode_short_circuits_witness :
    holdSlot cfgDemo 200 true 200 "C" "L" "T" initSt =
      ({ initSt with exited := some 2 }, [.exitProc 2]) ∧
    bookSlot cfgDemo 200 "C" "L" "T" initSt =
      ({ initSt with exited := some 2 }, [.exitProc 2]) ∧
    cancelBooking cfgDemo 200 initSt =
      ({ initSt with exited := some 2 }, [.exitProc 2]) :=
  demo_mode_short_circuits cfgDemo 200 true 200 "C" "L" "T" initSt rfl

end TXDPS

namespace TXDPS

/-- C4: when the hold request is issued and the remote response does not
confirm the hold, `holdSlot` leaves both latches false, moves the polling
queue from Paused back to Running, does not exit, and never reaches the
booking request. The hypotheses state that the operation reaches the hold
request: demo off, not already holding, process alive, and the staged
cancellation (if any) succeeding. -/
theorem hold_failure_resumes_queue (cfg : Config) (cs bs : Nat)
    (cn ln ts : String) (st : St)
    (hdemo : cfg.appSettings.demoOnly = false)
    (hh : st.isHolded = false) (hb : st.isBooked = false)
    (hq : st.queuePaused = true) (he : st.exited = none)
    (hcancel : st.existingConf = "" ∨ cs = 200) :
    ((holdSlot cfg cs false bs cn ln ts st).1).isBooked = false ∧
    ((holdSlot cfg cs false bs cn ln ts st).1).isHolded = false ∧
    ((holdSlot cfg cs false bs cn ln ts st).1).queuePaused = false ∧
    ((holdSlot cfg cs false bs cn ln ts st).1).exited = none ∧
    Effect.transport "/api/NewBooking" ∉
      (holdSlot cfg cs false bs cn ln ts st).2 := by
  unfold holdSlot cancelBooking
  dsimp only
  rcases hcancel with hc | hc
  · simp_all
  · by_cases hex : st.existingConf = "" <;> simp_all

/-- C4 witness: a failed hold from a paused fresh state resumes the queue. -/
theorem hold_failure_resumes_queue_witness :
    ((holdSlot cfgBase 500 false 200 "C" "L" "T"
      { initSt with queuePaused := true }).1).queuePaused = false :=
  (hold_failure_resumes_queue cfgBase 500 200 "C" "L" "T"
    { initSt with queuePaused := true } rfl rfl rfl rfl rfl (Or.inl rfl)).2.2.1

/-- C5 counterexample: the claim that every successful booking is followed
by exactly one important notification is false when the webhook channel is
disabled — the booking succeeds and the process exits 0, but zero
notifications are emitted. -/
theorem book_success_without_webhook_counterexample :
    (bookSlot cfgNoWebhook 200 "C123" "Austin" "T" initSt).1.exited =
      some 0 ∧
    List.countP isImportantNotification
      (bookSlot cfgNoWebhook 200 "C123" "Austin" "T" initSt).2 = 0 := by
  constructor <;> decide

/-- C5 amended: when the booking request returns HTTP 200 and the webhook
channel is enabled, `bookSlot` sets the `isBooked` latch, emits exactly one
important notification whose message contains the confirmation identifier,
and terminates the process with exit code 0 as its final effect; every
subsequent discovery event is a no-op, so no further polling round runs. -/
theorem book_success_notifies_and_exits (cfg : Config) (cn ln ts : String)
    (st : St) (hdemo : cfg.appSettings.demoOnly = false)
    (hwh : cfg.webhook.enable = true) (hb : st.isBooked = false) :
    ((bookSlot cfg 200 cn ln ts st).1).isBooked = true ∧
    ((bookSlot cfg 200 cn ln ts st).1).exited = some 0 ∧
    (bookSlot cfg 200 cn ln ts st).2 =
      [.transport "/api/Eligibility", .transport "/api/NewBooking",
       .notify true (bookMessage cfg.personalInfo.firstName
         cfg.personalInfo.lastName cn ln ts),
       .exitProc 0] ∧
    List.countP isImportantNotification (bookSlot cfg 200 cn ln ts st).2 = 1 ∧
    (bookSlot cfg 200 cn ln ts st).2.getLast? = some (.exitProc 0) ∧
    (∃ a b, bookMessage cfg.personalInfo.firstName cfg.personalInfo.lastName
      cn ln ts = a ++ cn ++ b) ∧
    (∀ e : ProbeEvent, step cfg (bookSlot cfg 200 cn ln ts st).1 e =
      (bookSlot cfg 200 cn ln ts st).1) := by
  have heq : bookSlot cfg 200 cn ln ts st =
      ({ st with isBooked := true, exited := some 0 },
        [.transport "/api/Eligibility", .transport "/api/NewBooking",
         .notify true (bookMessage cfg.personalInfo.firstName
           cfg.personalInfo.lastName cn ln ts),
         .exitProc 0]) := by
    unfold bookSlot
    simp [hdemo, hwh, hb]
  rw [heq]
  refine ⟨rfl, rfl, rfl, by simp [isImportantNotification], by simp, ?_, ?_⟩
  · exact ⟨"Booking for " ++ cfg.personalInfo.firstName ++ " " ++
      cfg.personalInfo.lastName ++ " has been booked.\nConfirmation Number: ",
      "\nLocation: " ++ ln ++ " DPS\nTime: " ++ ts ++
      "\nAppointment URL: " ++ appointmentURL cn ++
      "\n\nScheduler will now Exit.", rfl⟩
  · intro e
    unfold step
    simp

/-- C5 witness: a successful booking at a concrete configuration sets the
`isBooked` latch. -/
theorem book_success_notifies_and_exits_witness :
    ((bookSlot cfgBase 200 "C9" "L" "T" initSt).1).isBooked = true :=
  (book_success_notifies_and_exits cfgBase "C9" "L" "T" initSt rfl rfl rfl).1

/-- C6: the prober keeps exactly the dates within the configured day window
`[lo, hi)` (measured in milliseconds from now against day multiples, as the
source compares `msAway` to `ms(lo + "d")` and `ms(hi + "d")`) that have at
least one open time slot. -/
theorem filterDates_mem_iff (lo hi now : Int)
    (dates : List LocationAvailabilityDate) (d : LocationAvailabilityDate) :
    d ∈ filterDates lo hi now dates ↔
      d ∈ dates ∧ lo * msPerDay ≤ d.AvailabilityDate - now ∧
        d.AvailabilityDate - now < hi * msPerDay ∧
        d.AvailableTimeSlots ≠ [] := by
  unfold filterDates
  simp [List.mem_filter, ge_iff_le, ← List.length_pos]
  tauto

/-- C6 witness: a date three days out with one slot is kept by the `[0, 5)`
window. -/
theorem filterDates_mem_iff_witness :
    (⟨3 * 86400000, [⟨1, "s", "f", 30⟩]⟩ : LocationAvailabilityDate) ∈
      filterDates 0 5 0 [⟨3 * 86400000, [⟨1, "s", "f", 30⟩]⟩] :=
  (filterDates_mem_iff 0 5 0 [⟨3 * 86400000, [⟨1, "s", "f", 30⟩]⟩]
    ⟨3 * 86400000, [⟨1, "s", "f", 30⟩]⟩).mpr
    ⟨List.mem_singleton.mpr rfl, by decide, by decide, by decide⟩

/-- C7: the probe result is an error exactly when the fetch failed; with a
received response it returns `none` (absence, not an error) when no date
qualifies, and a selected slot when one does — so "no candidate" and
"transport failure" stay distinguishable to the polling round. -/
theorem getLocationDates_absence_vs_error (lo hi now : Int)
    (fetch : Except Unit AvaliableLocationDatesResponse) :
    ((∃ e, getLocationDates lo hi now fetch = .error e) ↔
      (∃ e, fetch = .error e)) ∧
    (∀ resp, fetch = .ok resp →
      (filterDates lo hi now resp.LocationAvailabilityDates = [] →
        getLocationDates lo hi now fetch = .ok (none, resp)) ∧
      (filterDates lo hi now resp.LocationAvailabilityDates ≠ [] →
        ∃ slot, getLocationDates lo hi now fetch = .ok (some slot, resp))) := by
  constructor
  · cases fetch with
    | error e => simp [getLocationDates]
    | ok resp =>
      simp only [getLocationDates]
      cases hf : filterDates lo hi now resp.LocationAvailabilityDates with
      | nil => simp
      | cons d rest => simp
  · rintro resp rfl
    constructor
    · intro hf
      simp [getLocationDates, hf]
    · intro hf
      obtain ⟨d, rest, hd⟩ := List.exists_cons_of_ne_nil hf
      have hmem : d ∈ filterDates lo hi now resp.LocationAvailabilityDates := by
        rw [hd]; exact List.mem_cons_self d rest
      have hlen : 0 < d.AvailableTimeSlots.length := by
        unfold filterDates at hmem
        have := (List.mem_filter.mp hmem).2
        simp at this
        exact this.2
      obtain ⟨s, ss, hs⟩ :=
        List.exists_cons_of_ne_nil (List.length_pos.mp hlen)
      refine ⟨s, ?_⟩
      simp [getLocationDates, hd, hs]

/-- C7 witness: a response whose only date is out of window yields absence
(`none`), not an error. -/
theorem getLocationDates_absence_vs_error_witness :
    getLocationDates 0 5 0 (.ok sampleDatesResponse) =
      .ok (none, sampleDatesResponse) :=
  ((getLocationDates_absence_vs_error 0 5 0
    (.ok sampleDatesResponse)).2 sampleDatesResponse rfl).1 (by decide)

/-- A `sendWebhook` call that starts as a fresh send (important, or no
stored reference) performs at most one Telegram call: only a failed edit
re-enters. -/
theorem sendWebhook_fresh_length_le_one (fuel : Nat) (resps : List TgResp)
    (id : Int) (important : Bool) (h : important = true ∨ id < 0) :
    ((sendWebhook fuel resps id important).2).length ≤ 1 := by
  cases fuel with
  | zero => simp [sendWebhook]
  | succ f =>
    have hsn : (important || decide (id < 0)) = true := by
      rcases h with h | h <;> simp [h]
    unfold sendWebhook
    dsimp only
    cases resps with
    | nil => simp
    | cons r rest =>
      simp only [hsn]
      repeat' split
      all_goals simp_all

/-- Every `sendWebhook` call performs at most two Telegram calls: the retry
after a failed edit is always a fresh send and never re-enters again. -/
theorem sendWebhook_length_le_two (fuel : Nat) (resps : List TgResp)
    (id : Int) (important : Bool) :
    ((sendWebhook fuel resps id important).2).length ≤ 2 := by
  cases fuel with
  | zero => simp [sendWebhook]
  | succ f =>
    unfold sendWebhook
    dsimp only
    cases resps with
    | nil => simp
    | cons r rest =>
      have hrec := sendWebhook_fresh_length_le_one f rest (-2) important
        (Or.inr (by decide))
      repeat' split
      all_goals simp_all

/-- C8: a report call with no stored reference (`id < 0`, in particular the
first call) sends a new message; a later non-important call first attempts
to edit the stored reference; when that edit fails exactly one fresh send
follows; and no call ever performs more than two Telegram requests. -/
theorem sendWebhook_report_policy (fuel : Nat) (resps rest : List TgResp)
    (id : Int) (important : Bool) (r1 r2 : TgResp) :
    (id < 0 →
      (sendWebhook 2 (r1 :: rest) id important).2 =
        [.sendMessage (!important)]) ∧
    (0 ≤ id → r1.ok = true →
      (sendWebhook 2 (r1 :: rest) id false).2 = [.editMessageText id]) ∧
    (0 ≤ id → r1.ok = false →
      (sendWebhook 2 (r1 :: r2 :: rest) id false).2 =
        [.editMessageText id, .sendMessage true]) ∧
    ((sendWebhook fuel resps id important).2).length ≤ 2 := by
  refine ⟨fun h => ?_, fun h hok => ?_, fun h hok => ?_,
    sendWebhook_length_le_two fuel resps id important⟩
  · have hd : decide (id < 0) = true := decide_eq_true h
    unfold sendWebhook
    simp only [hd, Bool.or_true]
    repeat' split
    all_goals simp_all
  · have hd : decide (id < 0) = false := decide_eq_false (by omega)
    unfold sendWebhook
    simp [hd, hok]
  · have hd : decide (id < 0) = false := decide_eq_false (by omega)
    unfold sendWebhook
    simp [hd, hok]
    unfold sendWebhook
    simp
    split <;> rfl

/-- C8 witness: a failed edit of stored reference 5 is followed by exactly
one fresh send. -/
theorem sendWebhook_report_policy_witness :
    (sendWebhook 2 [⟨false, 0⟩, ⟨true, 9⟩] 5 false).2 =
      [.editMessageText 5, .sendMessage true] :=
  (sendWebhook_report_policy 2 [] [] 5 false ⟨false, 0⟩ ⟨true, 9⟩).2.2.1
    (by decide) (by decide)

/-- C9: under the replace policy, startup stages the existing booking's
confirmation number without issuing any `/api/CancelBooking` request, and
the Hold step then issues the cancellation as its first transport call,
before the `/api/HoldSlot` request. -/
theorem replace_policy_stages_cancellation (cfg : Config) (webhookOk : Bool)
    (b : ExistBookingResponse) (rest : List ExistBookingResponse)
    (nowStr : String) (cs : Nat) (ho : Bool) (bs : Nat) (cn ln ts : String)
    (hreplace : cfg.appSettings.cancelIfExist = true)
    (hdemo : cfg.appSettings.demoOnly = false)
    (hwh : cfg.webhook.enable = true → webhookOk = true)
    (hconf : b.ConfirmationNumber ≠ "") :
    Effect.transport "/api/CancelBooking" ∉
      (runStartup cfg webhookOk (b :: rest) nowStr initSt).2 ∧
    (runStartup cfg webhookOk (b :: rest) nowStr initSt).1.existingConf =
      b.ConfirmationNumber ∧
    (∃ tail,
      (holdSlot cfg cs ho bs cn ln ts
        (runStartup cfg webhookOk (b :: rest) nowStr initSt).1).2 =
        Effect.transport "/api/CancelBooking" :: tail ∧
      (cs = 200 → ∃ tail2,
        tail = Effect.transport "/api/HoldSlot" :: tail2)) := by
  have hrun : runStartup cfg webhookOk (b :: rest) nowStr initSt =
      ({ initSt with existingConf := b.ConfirmationNumber },
        (if cfg.webhook.enable then
          [Effect.notify false (startingMessage nowStr)] else []) ++
        [.transport "/api/Booking", .transport "/api/AvailableLocation/"]) := by
    unfold runStartup
    by_cases hen : cfg.webhook.enable = true
    · simp [hen, hwh hen, hreplace, initSt]
    · simp at hen
      simp [hen, hreplace, initSt]
  rw [hrun]
  refine ⟨?_, rfl, ?_⟩
  · split <;> simp
  · by_cases hcs : cs = 200
    · unfold holdSlot cancelBooking
      simp [hdemo, hconf, initSt, hcs]
      split
      · exact ⟨_, rfl, _, rfl⟩
      · exact ⟨[Effect.transport "/api/HoldSlot"], rfl, [], rfl⟩
    · unfold holdSlot cancelBooking
      simp [hdemo, hconf, initSt, hcs]

/-- C9 witness: at a concrete configuration the startup stages the
confirmation number. -/
theorem replace_policy_stages_cancellation_witness :
    (runStartup cfgBase true [⟨"CONF"⟩] "now" initSt).1.existingConf =
      "CONF" :=
  (replace_policy_stages_cancellation cfgBase true ⟨"CONF"⟩ [] "now" 200
    true 200 "C" "L" "T" rfl rfl (fun _ => rfl) (by decide)).2.1

/-- C10 counterexample: the claim that only a successful non-important new
send updates the cached reference is false — with stored reference 5, a
non-important call whose edit fails and whose retry send also fails leaves
the reference changed to the sentinel -2 although no send succeeded. -/
theorem reference_update_without_successful_send_counterexample :
    (sendWebhook 2 [⟨false, 0⟩, ⟨false, 0⟩] 5 false).1 = -2 ∧
      ((-2 : Int) ≠ 5) := by
  constructor <;> decide

/-- C10 amended: an important report call never modifies the stored
reference, whatever the outcomes; a non-important fresh send updates it to
the new message id only on success; a non-important edit keeps it on
success, and on failure invalidates it to the sentinel -2 before the single
retry send, which on success stores the new id and on failure leaves -2. -/
theorem important_preserves_reference :
    (∀ (fuel : Nat) (resps : List TgResp) (id : Int),
      (sendWebhook fuel resps id true).1 = id) ∧
    (∀ (r : TgResp) (rest : List TgResp) (id : Int), id < 0 →
      (sendWebhook 2 (r :: rest) id false).1 =
        if r.ok then r.message_id else id) ∧
    (∀ (r1 r2 : TgResp) (rest : List TgResp) (id : Int), 0 ≤ id →
      (sendWebhook 2 (r1 :: r2 :: rest) id false).1 =
        if r1.ok then id else if r2.ok then r2.message_id else -2) := by
  refine ⟨fun fuel resps id => ?_, fun r rest id h => ?_,
    fun r1 r2 rest id h => ?_⟩
  · cases fuel with
    | zero => rfl
    | succ f =>
      unfold sendWebhook
      cases resps with
      | nil => rfl
      | cons r rest =>
        repeat' split
        all_goals simp_all
  · have hd : decide (id < 0) = true := decide_eq_true h
    unfold sendWebhook
    simp only [hd]
    repeat' split
    all_goals simp_all
  · have hd : decide (id < 0) = false := decide_eq_false (by omega)
    unfold sendWebhook
    simp only [hd]
    repeat' split
    all_goals simp_all [sendWebhook]

/-- C10 witness: a successful fresh send from the initial reference -1
stores the new message id. -/
theorem important_preserves_reference_witness :
    (sendWebhook 2 [⟨true, 9⟩] (-1) false).1 = 9 :=
  important_preserves_reference.2.1 ⟨true, 9⟩ [] (-1) (by decide)

end TXDPS
